import Mathlib

/-!
Verification development for the speedtest measurement pipeline
(`src/app.py`, route handler `run_test`).

The Python handler is embedded shallowly:

* Python strings are Lean `String`s; `str.strip()` and `str.splitlines()`
  are modelled on their ASCII-whitespace / `'\n'`-newline behaviour, which
  is the only behaviour the repository's data exercises.
* The spec-level `RawMetrics` float fields are exact rationals (`ℚ`);
  `round(x, n)` is round-half-to-even on the exact value, per the
  reference's round-to-even convention.  Binary-representation artefacts
  of IEEE doubles (e.g. `round(2.675, 2) = 2.67`, negative zero) are
  outside the model.
* Numbers decoded from the JSON line keep Python's int/float distinction
  (`PyNum`), because `round(i, 0)` returns an `int` for `int` input and a
  `float` for `float` input, and the two print differently in an
  f-string.  A decoded float is a finite decimal `mant * 10 ^ exp`, and
  the pipeline's rounding on it is computed by exact integer arithmetic.
* The external analysis collaborator (Gemini, §6 of the spec) is opaque:
  `runTest` takes it as a function argument.
-/

/-- Python `str.strip()` whitespace test, restricted to ASCII whitespace
(`' '`, `'\t'`, `'\n'`, `'\r'`, `'\x0b'`, `'\x0c'`). -/
def pySpace (c : Char) : Bool :=
  c = ' ' || c = '\t' || c = '\n' || c = '\r' || c = '\x0b' || c = '\x0c'

/-- Python `str.strip()`: drop leading and trailing whitespace. -/
def pyStrip (s : String) : String :=
  String.mk (((s.data.dropWhile pySpace).reverse.dropWhile pySpace).reverse)

/-- Helper for `pySplitlines`: split a nonempty character list at `'\n'`,
dropping the empty piece produced by a trailing newline (as Python
`str.splitlines()` does). -/
def splitLinesAux : List Char → List Char → List (List Char)
  | [], acc => [acc.reverse]
  | '\n' :: [], acc => [acc.reverse]
  | '\n' :: r, acc => acc.reverse :: splitLinesAux r []
  | c :: r, acc => splitLinesAux r (c :: acc)

/-- Python `str.splitlines()` restricted to `'\n'` line boundaries: the
empty string yields `[]`, and a trailing newline does not produce a final
empty line. -/
def pySplitlines (s : String) : List String :=
  if s.data = [] then [] else (splitLinesAux s.data []).map String.mk

/-- The loop test of `src/app.py` lines 74-76: after stripping the line,
does it start with `'{'`? -/
def startsWithBrace (l : String) : Bool :=
  match (pyStrip l).data with
  | c :: _ => c = '\x7b'
  | [] => false

/-- The lines of (stripped) stdout whose whitespace-trimmed first
character is `'{'` — the candidates of the extraction loop. -/
def qualifyingLines (stdout : String) : List String :=
  (pySplitlines (pyStrip stdout)).filter startsWithBrace

/-- Output extraction, `src/app.py` lines 70-78: strip stdout, split into
lines, scan in reverse order, and return the *stripped* form of the first
line whose stripped form starts with `'{'`; `none` when no line
qualifies (the `if not json_output` branch of line 80). -/
def extractJsonLine (stdout : String) : Option String :=
  (((pySplitlines (pyStrip stdout)).reverse).find? startsWithBrace).map pyStrip

/-- Round half to even (banker's rounding) on exact rationals: the
behaviour of Python's `round` on the exact value of its argument. -/
def rne (x : ℚ) : ℤ :=
  let n := ⌊x⌋
  let f := x - n
  if f < 1 / 2 then n
  else if 1 / 2 < f then n + 1
  else if n % 2 = 0 then n else n + 1

/-- Python repr of the float `round(x, 0)` for float `x`: an integer
followed by `".0"`. -/
def floatRepr0 (k : ℤ) : String :=
  toString k ++ ".0"

/-- Python repr of the float `m / 100` (the result of `round(x, 2)`):
minimal decimal digits, at least one digit after the point. -/
def floatRepr2 (m : ℤ) : String :=
  let sign : String := if m < 0 then "-" else ""
  let a := m.natAbs
  let ip := a / 100
  let fr := a % 100
  if fr = 0 then sign ++ toString ip ++ ".0"
  else if fr % 10 = 0 then sign ++ toString ip ++ "." ++ toString (fr / 10)
  else if fr < 10 then sign ++ toString ip ++ ".0" ++ toString fr
  else sign ++ toString ip ++ "." ++ toString fr

/-- Half-to-even division of `m` by a positive `d`: the integer nearest
`m / d`, ties to the even neighbour.  Exact integer computation of `rne`
on the fraction `m / d`. -/
def hed (m d : ℤ) : ℤ :=
  let q := Int.fdiv m d
  let r := m - q * d
  if 2 * r < d then q
  else if d < 2 * r then q + 1
  else if q % 2 = 0 then q else q + 1

/-- `rne (m * 10 ^ e)` computed by exact integer arithmetic. -/
def rneScaled (m e : ℤ) : ℤ :=
  if 0 ≤ e then m * 10 ^ e.toNat
  else hed m (10 ^ (-e).toNat)

/-- A number decoded from the JSON line, keeping Python's int/float
distinction.  A float is the exact decimal `mant * 10 ^ exp` denoted by
the JSON literal. -/
inductive PyNum where
  | int (n : ℤ)
  | dec (mant : ℤ) (exp : ℤ)
deriving DecidableEq

/-- Decimal mantissa/exponent view of a `PyNum` (an int `n` is
`n * 10 ^ 0`). -/
def PyNum.mantExp : PyNum → ℤ × ℤ
  | .int n => (n, 0)
  | .dec m e => (m, e)

/-- The Python test `x <= 0.0`: a decimal `m * 10 ^ e` is nonpositive
iff its mantissa is. -/
def PyNum.nonpos (x : PyNum) : Bool :=
  decide (x.mantExp.1 ≤ 0)

/-- The Python test `x > 10000` on the exact decimal value. -/
def PyNum.tooHigh (x : PyNum) : Bool :=
  let (m, e) := x.mantExp
  if 0 ≤ e then decide (10000 < m * 10 ^ e.toNat)
  else decide (10000 * 10 ^ (-e).toNat < m)

/-- A value of the decoded JSON object.  Modelled subset of Python's
`json.loads`: flat objects whose values are numbers, strings, booleans or
null — the shape of the measurement tool's output line.  (Nested
objects/arrays, string escapes and `NaN`/`Infinity` literals are outside
the modelled grammar.) -/
inductive JValue where
  | num (x : PyNum)
  | str (s : String)
  | bool (b : Bool)
  | null
deriving DecidableEq

/-- A decoded JSON object: key/value pairs in source order. -/
abbrev JObj := List (String × JValue)

/-- Python dict lookup on a decoded object (a duplicated key keeps its
last occurrence, as in `json.loads`). -/
def jLookup (obj : JObj) (k : String) : Option JValue :=
  ((List.reverse obj).find? (fun p => p.1 == k)).map Prod.snd

/-- Python `dict.get(k, default)`. -/
def jGetD (obj : JObj) (k : String) (v : JValue) : JValue :=
  (jLookup obj k).getD v

/-- The default `0.0` of `test_data_raw.get(..., 0.0)` — a Python float. -/
def jZero : JValue := JValue.num (.dec 0 0)

/-- Python numeric coercion for the arithmetic of `src/app.py` lines
91-108: numbers are used as themselves, booleans as the ints 0/1 (`bool`
is an `int` subclass); a string or null raises `TypeError`. -/
def jToNum : JValue → Option PyNum
  | .num x => some x
  | .bool b => some (.int (if b then 1 else 0))
  | .str _ => none
  | .null => none

/-- JSON whitespace skipping for the decoder. -/
def skipWs (cs : List Char) : List Char :=
  cs.dropWhile (fun c => c = ' ' || c = '\t' || c = '\n' || c = '\r')

/-- Body of a JSON string after its opening quote (no escape sequences in
the modelled grammar). -/
def parseStrAux : List Char → List Char → Option (String × List Char)
  | [], _ => none
  | '"' :: r, acc => some (String.mk acc.reverse, r)
  | '\\' :: _, _ => none
  | c :: r, acc => parseStrAux r (c :: acc)

/-- Leading run of ASCII digits. -/
def takeDigits (cs : List Char) : List Char × List Char :=
  (cs.takeWhile Char.isDigit, cs.dropWhile Char.isDigit)

/-- Numeric value of a digit run. -/
def digitsToNat (ds : List Char) : ℕ :=
  ds.foldl (fun a c => a * 10 + (c.toNat - '0'.toNat)) 0

/-- Optional exponent part of a JSON number: `none` in the first
component when no exponent is present; failure when an `e` is not
followed by digits. -/
def parseExpPart (cs : List Char) : Option (Option ℤ × List Char) :=
  match cs with
  | 'e' :: r | 'E' :: r =>
    let (sgn, r1) : ℤ × List Char :=
      match r with
      | '+' :: t => (1, t)
      | '-' :: t => (-1, t)
      | _ => (1, r)
    let (ds, r2) := takeDigits r1
    if ds.isEmpty then none else some (some (sgn * (digitsToNat ds : ℤ)), r2)
  | _ => some (none, cs)

/-- A JSON number.  As in Python's `json`, a literal without fraction and
exponent decodes to an `int`, any other to a `float`. -/
def parseNumber (cs : List Char) : Option (PyNum × List Char) :=
  let (neg, cs1) : Bool × List Char :=
    match cs with
    | '-' :: r => (true, r)
    | _ => (false, cs)
  let (ip, cs2) := takeDigits cs1
  if ip.isEmpty then none
  else
    let (fd, cs3, hasFrac) : List Char × List Char × Bool :=
      match cs2 with
      | '.' :: r =>
        let (d, r2) := takeDigits r
        (d, r2, true)
      | _ => ([], cs2, false)
    if hasFrac && fd.isEmpty then none
    else
      match parseExpPart cs3 with
      | none => none
      | some (exp?, cs4) =>
        let mag : ℤ := (digitsToNat ip : ℤ) * 10 ^ fd.length + (digitsToNat fd : ℤ)
        let mant : ℤ := if neg then -mag else mag
        if hasFrac || exp?.isSome then
          some (.dec mant ((exp?.getD 0) - (fd.length : ℤ)), cs4)
        else
          some (.int mant, cs4)

/-- A JSON value of the modelled grammar. -/
def parseValue (cs : List Char) : Option (JValue × List Char) :=
  match skipWs cs with
  | '"' :: r => (parseStrAux r []).map (fun p => (JValue.str p.1, p.2))
  | 't' :: 'r' :: 'u' :: 'e' :: r => some (.bool true, r)
  | 'f' :: 'a' :: 'l' :: 's' :: 'e' :: r => some (.bool false, r)
  | 'n' :: 'u' :: 'l' :: 'l' :: r => some (.null, r)
  | cs1 => (parseNumber cs1).map (fun p => (JValue.num p.1, p.2))

/-- The members of a JSON object after its opening brace (first key
expected next); fuel bounds the number of members. -/
def parseEntriesAux : ℕ → JObj → List Char → Option (JObj × List Char)
  | 0, _, _ => none
  | fuel + 1, acc, cs =>
    match skipWs cs with
    | '"' :: r =>
      match parseStrAux r [] with
      | none => none
      | some (k, r1) =>
        match skipWs r1 with
        | ':' :: r2 =>
          match parseValue r2 with
          | none => none
          | some (v, r3) =>
            match skipWs r3 with
            | ',' :: r4 => parseEntriesAux fuel (acc ++ [(k, v)]) r4
            | '\x7d' :: r4 => some (acc ++ [(k, v)], r4)
            | _ => none
        | _ => none
    | _ => none

/-- `json.loads` on the extracted line, restricted to the modelled
grammar (`src/app.py` line 85): a single flat object, with nothing but
whitespace around it. -/
def jsonDecode (s : String) : Option JObj :=
  match skipWs s.data with
  | '\x7b' :: r =>
    match skipWs r with
    | '\x7d' :: r2 => if (skipWs r2).isEmpty then some [] else none
    | _ =>
      match parseEntriesAux (r.length + 1) [] r with
      | some (obj, rest) => if (skipWs rest).isEmpty then some obj else none
      | none => none
  | _ => none

/-- The download sentinel of `src/app.py` line 100 (the spec's
"Unavailable"). -/
def downloadSentinel : String := "Utilgjengelig"

/-- The ping sentinel of `src/app.py` line 106 (the spec's
"Error/Too high"). -/
def pingSentinel : String := "Feil/For høy"

/-- The spec's `RawMetrics` (§3): float-valued download/upload (bits per
second) and ping (milliseconds), as exact rationals. -/
structure RawMetrics where
  download : ℚ
  upload : ℚ
  ping : ℚ

/-- The spec's `NormalizedMetrics` (§3): three human-displayable
strings. -/
structure NormalizedMetrics where
  download : String
  upload : String
  ping : String
deriving DecidableEq

/-- `f"{round(x / 1000000, 2)} Mbit/s"` on a float `x`:
`round(x / 1000000, 2) = rne (x / 10000) / 100`, printed by
`floatRepr2`. -/
def mbitStr (x : ℚ) : String :=
  floatRepr2 (rne (x / 10000)) ++ " Mbit/s"

/-- Normalization, `src/app.py` lines 95-108, on float-valued raw
metrics:
* upload (line 96): always `round(x / 1000000, 2)` in Mbit/s;
* download (lines 99-102): the sentinel when `x <= 0.0`, otherwise the
  same formatting;
* ping (lines 105-108): the sentinel when `x > 10000 or x <= 0.0`,
  otherwise `round(x, 0)` in ms. -/
def normalizeMetrics (raw : RawMetrics) : NormalizedMetrics where
  download := if raw.download ≤ 0 then downloadSentinel else mbitStr raw.download
  upload := mbitStr raw.upload
  ping :=
    if 10000 < raw.ping ∨ raw.ping ≤ 0 then pingSentinel
    else floatRepr0 (rne raw.ping) ++ " ms"

/-- `f"{round(x / 1000000, 2)} Mbit/s"` on a decoded number, by exact
integer arithmetic (dividing by `10 ^ 6` shifts the decimal exponent;
the result of Python's `/` is always a float). -/
def mbitStrJ (x : PyNum) : String :=
  floatRepr2 (rneScaled x.mantExp.1 (x.mantExp.2 - 4)) ++ " Mbit/s"

/-- `f"{round(x, 0)} ms"` on a decoded number: `round` keeps an `int`
argument an `int` (printed without a decimal point) and returns a float
for a `float` argument (printed with a trailing `.0`). -/
def pingStrJ : PyNum → String
  | .int n => toString n ++ " ms"
  | .dec m e => floatRepr0 (rneScaled m e) ++ " ms"

/-- The modelled text of the `TypeError` Python raises when `/` or `<=`
is applied to a non-numeric field value. -/
def pyTypeErrorMsg : String := "unsupported operand type(s)"

/-- Normalization on the decoded JSON object, `src/app.py` lines 91-108:
the three fields default to the float `0.0` when absent; a non-numeric
field value raises `TypeError` at the first arithmetic touching it
(upload's division on line 96 runs first, then download's comparison on
line 99, then ping's comparison on line 105). -/
def normalizeJ (obj : JObj) : Except String NormalizedMetrics :=
  match jToNum (jGetD obj "upload" jZero) with
  | none => .error pyTypeErrorMsg
  | some u =>
    match jToNum (jGetD obj "download" jZero) with
    | none => .error pyTypeErrorMsg
    | some d =>
      match jToNum (jGetD obj "ping" jZero) with
      | none => .error pyTypeErrorMsg
      | some p =>
        .ok
          { download := if d.nonpos then downloadSentinel else mbitStrJ d
            upload := mbitStrJ u
            ping := if p.tooHigh || p.nonpos then pingSentinel else pingStrJ p }

/-- The spec's closed error taxonomy (§7), tagged by the raise site in
`src/app.py` (the two `ValueError` sites of lines 81 and 87 are the
spec's ExtractionError and ParseError). -/
inductive ErrorKind where
  | timeoutError
  | processError
  | extractionError
  | parseError
  | unknownError
deriving DecidableEq

/-- The spec's `TestResult` (§3): the success payload returned on line
146 (normalized metrics, the context echoed in `test_data`, and the
collaborator's analysis text), or a classified failure with its
user-facing message. -/
inductive TestResult where
  | success (metrics : NormalizedMetrics) (context : String) (analysis : String)
  | failure (kind : ErrorKind) (message : String)

/-- The error kind of a failure result. -/
def TestResult.kindOf : TestResult → Option ErrorKind
  | .failure k _ => some k
  | .success _ _ _ => none

/-- The message of a failure result. -/
def TestResult.msgOf : TestResult → Option String
  | .failure _ m => some m
  | .success _ _ _ => none

/-- The normalized metrics of a success result. -/
def TestResult.metricsOf : TestResult → Option NormalizedMetrics
  | .success m _ _ => some m
  | .failure _ _ => none

/-- The context of a success result. -/
def TestResult.contextOf : TestResult → Option String
  | .success _ c _ => some c
  | .failure _ _ => none

/-- The fixed fallback context of `src/app.py` line 44. -/
def defaultContext : String := "Jeg surfer bare på nettet."

/-- `data.get('context', ...)` of `src/app.py` line 44: the fallback is
used only when the caller supplied no `context` key at all; a present
value — the empty string included — is used unchanged. -/
def userContext (ctx : Option String) : String :=
  ctx.getD defaultContext

/-- The timeout failure message of `src/app.py` line 158. -/
def timeoutMsg : String :=
  "Feil: Hastighetstesten fullførte ikke innen 30 sekunder. Prøv igjen."

/-- The constant head of the non-zero-exit failure message. -/
def processErrHead : String :=
  "Kritisk Speedtest-feil. Sjekk installasjonen. Feil ved kjøring av Speedtest. Returkode: "

/-- The `". STDOUT: "` separator of the failure messages. -/
def stdoutSep : String := ". STDOUT: "

/-- The `". STDERR: "` separator of the failure messages. -/
def stderrSep : String := ". STDERR: "

/-- The non-zero-exit failure message (`src/app.py` lines 153-155): the
handler embeds the *stripped* captured stdout and stderr of the
`CalledProcessError`. -/
def processErrMsg (code : ℤ) (so se : String) : String :=
  processErrHead ++ toString code ++ stdoutSep ++ so ++ stderrSep ++ se

/-- The constant head of the no-JSON-line failure message. -/
def extractionErrHead : String :=
  "Serverfeil ved behandling av Speedtest-resultater: Klarte ikke å finne JSON-utdata fra Speedtest. Full utdata (STDOUT): "

/-- The no-JSON-line failure message (`src/app.py` lines 81 and 162): the
`ValueError` text embeds the *stripped* stdout and stderr, wrapped by the
`except ValueError` handler's prefix. -/
def extractionErrMsg (so se : String) : String :=
  extractionErrHead ++ so ++ stderrSep ++ se

/-- The JSON-decode failure message (`src/app.py` lines 87 and 162); the
`JSONDecodeError` detail is modelled opaquely. -/
def parseErrMsg (line : String) : String :=
  "Serverfeil ved behandling av Speedtest-resultater: Feil ved dekoding av JSON. Mottatt: "
    ++ line

/-- The catch-all failure message of `src/app.py` line 165. -/
def unknownErrMsg (detail : String) : String :=
  "En uforutsett feil oppstod på serveren: " ++ detail

/-- The spec's `Invocation` (§3): command name, argument list, timeout. -/
structure Invocation where
  command : String
  args : List String
  timeoutSeconds : ℕ

/-- The invocation of `src/app.py` lines 51-60: `speedtest --json` under
a 30-second deadline. -/
def speedtestInvocation : Invocation :=
  { command := "speedtest", args := ["--json"], timeoutSeconds := 30 }

/-- What the subprocess call delivered: either the process finished
(exit code plus captured streams), or the deadline fired
(`subprocess.TimeoutExpired`, which carries no usable output into the
handler). -/
structure ProcessResult where
  returncode : ℤ
  stdout : String
  stderr : String

/-- Outcome of `subprocess.run` under the 30-second deadline. -/
inductive ProcOutcome where
  | completed (p : ProcessResult)
  | timedOut

/-- The `run_test` handler of `src/app.py` lines 40-165, as a function of
the caller's optional context, the subprocess outcome, and the opaque
analysis collaborator (§6): classify a timeout or non-zero exit, extract
the JSON line, decode it, normalize the fields, and assemble the success
payload; every failure is mapped to its `except` clause's response. -/
def runTest (generate : NormalizedMetrics → String → String)
    (ctx : Option String) (outcome : ProcOutcome) : TestResult :=
  let context := userContext ctx
  match outcome with
  | .timedOut => .failure .timeoutError timeoutMsg
  | .completed p =>
    if p.returncode ≠ 0 then
      .failure .processError (processErrMsg p.returncode (pyStrip p.stdout) (pyStrip p.stderr))
    else
      match extractJsonLine p.stdout with
      | none => .failure .extractionError (extractionErrMsg (pyStrip p.stdout) (pyStrip p.stderr))
      | some line =>
        match jsonDecode line with
        | none => .failure .parseError (parseErrMsg line)
        | some obj =>
          match normalizeJ obj with
          | .error detail => .failure .unknownError (unknownErrMsg detail)
          | .ok metrics => .success metrics context (generate metrics context)


/-- Substring test on character lists: some tail of `hay` starts with
`n`. -/
def listContains (hay n : List Char) : Bool :=
  hay.tails.any (fun t => n.isPrefixOf t)

/-- Substring test on strings (Python's `n in hay`). -/
def strContainsB (hay n : String) : Bool :=
  listContains hay.data n.data

/-- Some present `download`/`upload`/`ping` member of the decoded object
holds a non-numeric value (a value Python's `/` and `<=` reject with
`TypeError`). -/
def hasBadMetricField (obj : JObj) : Prop :=
  ∃ k, k ∈ (["download", "upload", "ping"] : List String) ∧
    ∃ v, jLookup obj k = some v ∧ jToNum v = none

/-- The pipeline stdout of the spec's §8 scenario. -/
def scenarioStdout : String :=
  "Testing...\n\x7b\"download\": 50000000, \"upload\": 10000000, \"ping\": 20.3\x7d\n"

theorem reverse_find_eq_filter_getLast {α : Type} (p : α → Bool) (l : List α) :
    l.reverse.find? p = (l.filter p).getLast? := by
  induction l with
  | nil => rfl
  | cons a t ih =>
    rw [List.reverse_cons, List.find?_append, ih, List.filter_cons]
    by_cases h : p a
    · simp only [h, if_true, List.find?, List.getLast?_cons]
      cases (t.filter p).getLast? <;> rfl
    · simp only [h, if_false, List.find?, Option.or_none, Bool.false_eq_true]

theorem extract_eq_getLast_qualifying (s : String) :
    extractJsonLine s = (qualifyingLines s).getLast?.map pyStrip := by
  unfold extractJsonLine qualifyingLines
  rw [reverse_find_eq_filter_getLast]

theorem listContains_of_isPrefixOf (hay n : List Char) (h : n.isPrefixOf hay = true) :
    listContains hay n = true := by
  unfold listContains
  cases hay with
  | nil =>
    cases n with
    | nil => rfl
    | cons c cs => simp [List.isPrefixOf] at h
  | cons a as => rw [List.tails_cons, List.any_cons, h, Bool.true_or]

theorem listContains_append (pre n post : List Char) :
    listContains (pre ++ n ++ post) n = true := by
  induction pre with
  | nil =>
    simpa using listContains_of_isPrefixOf (n ++ post) n
      (List.isPrefixOf_iff_prefix.mpr (List.prefix_append n post))
  | cons c pre ih =>
    have hsh : (c :: pre) ++ n ++ post = c :: (pre ++ n ++ post) := by simp
    rw [hsh]
    unfold listContains at ih ⊢
    rw [List.tails_cons, List.any_cons, ih, Bool.or_true]

theorem strContainsB_infix (hay n pre post : String) (h : hay = pre ++ n ++ post) :
    strContainsB hay n = true := by
  subst h
  unfold strContainsB
  rw [String.data_append, String.data_append]
  exact listContains_append pre.data n.data post.data

theorem strContainsB_suffix (hay n pre : String) (h : hay = pre ++ n) :
    strContainsB hay n = true := by
  subst h
  unfold strContainsB
  rw [String.data_append]
  simpa using listContains_append pre.data n.data []

theorem append_mbit_ne (s : String) :
    s ++ " Mbit/s" ≠ downloadSentinel ∧ s ++ " Mbit/s" ≠ pingSentinel := by
  have h3 : (s ++ " Mbit/s").data.getLast? = some 's' := by
    rw [String.data_append, List.getLast?_append]
    rfl
  constructor <;> intro h
  · have h2 : (s ++ " Mbit/s").data.getLast? = downloadSentinel.data.getLast? :=
      congrArg (fun t : String => t.data.getLast?) h
    rw [h3] at h2
    exact absurd h2 (by decide)
  · have h2 : (s ++ " Mbit/s").data.getLast? = pingSentinel.data.getLast? :=
      congrArg (fun t : String => t.data.getLast?) h
    rw [h3] at h2
    exact absurd h2 (by decide)

theorem normalizeJ_error_of_bad (obj : JObj) (h : hasBadMetricField obj) :
    normalizeJ obj = .error pyTypeErrorMsg := by
  obtain ⟨k, hk, v, hlook, hnum⟩ := h
  have hget : jGetD obj k jZero = v := by rw [jGetD, hlook]; rfl
  simp only [List.mem_cons, List.not_mem_nil, or_false] at hk
  unfold normalizeJ
  rcases hk with hk | hk | hk <;> subst hk
  · cases hu : jToNum (jGetD obj "upload" jZero) with
    | none => rfl
    | some u => rw [hget, hnum]
  · rw [hget, hnum]
  · cases hu : jToNum (jGetD obj "upload" jZero) with
    | none => rfl
    | some u =>
      cases hd : jToNum (jGetD obj "download" jZero) with
      | none => rfl
      | some d => rw [hget, hnum]

/-- C1 (counterexample): on the §8 scenario stdout, the pipeline's
normalized metrics are download "50.0 Mbit/s", upload "10.0 Mbit/s" and
ping "20.0 ms" — Python's `round(20.3, 0)` is the float `20.0` — so they
are *not* the claimed triple ending in "20 ms". -/
theorem run_test_scenario_ping_not_20ms :
    (runTest (fun _ _ => "") none (.completed ⟨0, scenarioStdout, ""⟩)).metricsOf =
      some ⟨"50.0 Mbit/s", "10.0 Mbit/s", "20.0 ms"⟩ ∧
    (runTest (fun _ _ => "") none (.completed ⟨0, scenarioStdout, ""⟩)).metricsOf ≠
      some ⟨"50.0 Mbit/s", "10.0 Mbit/s", "20 ms"⟩ :=
  ⟨rfl, by decide⟩

/-- C1 (amended): for the pipeline input
`stdout = "Testing...\n{"download": 50000000, "upload": 10000000, "ping": 20.3}\n"`,
the normalized metrics are exactly download "50.0 Mbit/s", upload
"10.0 Mbit/s", and ping "20.0 ms", whatever the caller context and the
analysis collaborator. -/
theorem run_test_scenario_metrics (generate : NormalizedMetrics → String → String)
    (ctx : Option String) :
    (runTest generate ctx (.completed ⟨0, scenarioStdout, ""⟩)).metricsOf =
      some ⟨"50.0 Mbit/s", "10.0 Mbit/s", "20.0 ms"⟩ := rfl

/-- C2: for every `RawMetrics` value, if `raw.ping > 10000` or
`raw.ping <= 0.0` the normalized ping is the sentinel; otherwise it is
`round(raw.ping, 0)` formatted as `"<value> ms"`; in particular
`raw.ping == 15000` yields the sentinel. -/
theorem ping_normalization_rule (raw : RawMetrics) :
    (10000 < raw.ping ∨ raw.ping ≤ 0 → (normalizeMetrics raw).ping = pingSentinel) ∧
    (0 < raw.ping → raw.ping ≤ 10000 →
      (normalizeMetrics raw).ping = floatRepr0 (rne raw.ping) ++ " ms") ∧
    (raw.ping = 15000 → (normalizeMetrics raw).ping = pingSentinel) := by
  refine ⟨fun h => ?_, fun h1 h2 => ?_, fun h => ?_⟩
  · simp only [normalizeMetrics, if_pos h]
  · have hn : ¬(10000 < raw.ping ∨ raw.ping ≤ 0) := by
      push_neg
      exact ⟨h2, h1⟩
    simp only [normalizeMetrics, if_neg hn]
  · have hp : 10000 < raw.ping ∨ raw.ping ≤ 0 := Or.inl (by rw [h]; norm_num)
    simp only [normalizeMetrics, if_pos hp]

/-- C2 witness: ping 15000 falls in the sentinel range and yields the
sentinel; ping 20.3 falls in `(0, 10000]` and yields the rounded
formatted value. -/
theorem ping_normalization_rule_witness :
    (10000 < (15000 : ℚ) ∨ (15000 : ℚ) ≤ 0) ∧
    (normalizeMetrics ⟨0, 0, 15000⟩).ping = pingSentinel ∧
    0 < (203 / 10 : ℚ) ∧ (203 / 10 : ℚ) ≤ 10000 ∧
    (normalizeMetrics ⟨0, 0, 203 / 10⟩).ping = floatRepr0 (rne (203 / 10)) ++ " ms" :=
  ⟨Or.inl (by norm_num),
   (ping_normalization_rule ⟨0, 0, 15000⟩).1 (Or.inl (by norm_num)),
   by norm_num, by norm_num,
   (ping_normalization_rule ⟨0, 0, 203 / 10⟩).2.1 (by norm_num) (by norm_num)⟩

/-- C3: for every `RawMetrics` value, if `raw.download <= 0.0` the
normalized download is the sentinel, otherwise
`round(raw.download / 1000000, 2)` formatted as `"<value> Mbit/s"`; and an
absent `download` field (defaulted to `0.0`) also yields the sentinel. -/
theorem download_normalization_rule :
    (∀ raw : RawMetrics, raw.download ≤ 0 →
      (normalizeMetrics raw).download = downloadSentinel) ∧
    (∀ raw : RawMetrics, 0 < raw.download →
      (normalizeMetrics raw).download =
        floatRepr2 (rne (raw.download / 10000)) ++ " Mbit/s") ∧
    (∀ obj : JObj, jLookup obj "download" = none →
      ∀ m, normalizeJ obj = .ok m → m.download = downloadSentinel) := by
  refine ⟨fun raw h => ?_, fun raw h => ?_, fun obj hnone m hok => ?_⟩
  · simp only [normalizeMetrics, if_pos h]
  · simp only [normalizeMetrics, if_neg (not_le.mpr h)]
    rfl
  · have hd2 : jToNum (jGetD obj "download" jZero) = some (PyNum.dec 0 0) := by
      rw [jGetD, hnone]
      rfl
    unfold normalizeJ at hok
    cases hu : jToNum (jGetD obj "upload" jZero) with
    | none =>
      rw [hu] at hok
      exact Except.noConfusion hok
    | some u =>
      rw [hu, hd2] at hok
      cases hp : jToNum (jGetD obj "ping" jZero) with
      | none =>
        rw [hp] at hok
        exact Except.noConfusion hok
      | some p =>
        rw [hp] at hok
        rw [← Except.ok.inj hok]
        rfl

/-- C3 witness: download 0 and a missing download field both yield the
sentinel; download 50000000 yields the formatted value. -/
theorem download_normalization_rule_witness :
    ((0 : ℚ) ≤ 0 ∧ (normalizeMetrics ⟨0, 0, 0⟩).download = downloadSentinel) ∧
    (0 < (50000000 : ℚ) ∧ (normalizeMetrics ⟨50000000, 0, 0⟩).download =
      floatRepr2 (rne ((50000000 : ℚ) / 10000)) ++ " Mbit/s") ∧
    (jLookup [] "download" = none ∧
      normalizeJ [] = .ok ⟨downloadSentinel, mbitStrJ (.dec 0 0), pingSentinel⟩ ∧
      (⟨downloadSentinel, mbitStrJ (.dec 0 0), pingSentinel⟩ : NormalizedMetrics).download =
        downloadSentinel) :=
  ⟨⟨le_refl 0, (download_normalization_rule).1 ⟨0, 0, 0⟩ (le_refl 0)⟩,
   ⟨by norm_num, (download_normalization_rule).2.1 ⟨50000000, 0, 0⟩ (by norm_num)⟩,
   ⟨rfl, rfl, (download_normalization_rule).2.2 [] rfl _ rfl⟩⟩

/-- C4: for every `RawMetrics` value — upload positive, zero or
negative — the normalized upload is `round(raw.upload / 1000000, 2)`
formatted as `"<value> Mbit/s"`, and it is never one of the two sentinel
strings. -/
theorem upload_normalization_rule (raw : RawMetrics) :
    (normalizeMetrics raw).upload = floatRepr2 (rne (raw.upload / 10000)) ++ " Mbit/s" ∧
    (normalizeMetrics raw).upload ≠ downloadSentinel ∧
    (normalizeMetrics raw).upload ≠ pingSentinel :=
  ⟨rfl,
   (append_mbit_ne (floatRepr2 (rne (raw.upload / 10000)))).1,
   (append_mbit_ne (floatRepr2 (rne (raw.upload / 10000)))).2⟩

/-- C5 (counterexample): on `"noise\n {"a": 1}"` the last line whose
trimmed first character is `'{'` is `" {"a": 1}"`, but extraction returns
its *stripped* form `"{"a": 1}"`, not that line itself. -/
theorem extraction_returns_stripped_line_cex :
    extractJsonLine "noise\n \x7b\"a\": 1\x7d" = some "\x7b\"a\": 1\x7d" ∧
    (qualifyingLines "noise\n \x7b\"a\": 1\x7d").getLast? = some " \x7b\"a\": 1\x7d" ∧
    extractJsonLine "noise\n \x7b\"a\": 1\x7d" ≠ some " \x7b\"a\": 1\x7d" :=
  ⟨rfl, rfl, by decide⟩

/-- C5 (amended): for every stdout whose qualifying lines (trimmed first
character `'{'`) are nonempty, extraction returns the *whitespace-stripped
form* of the last such line — the first qualifying line found scanning in
reverse order. -/
theorem extraction_selects_last_brace_line (s l : String)
    (h : (qualifyingLines s).getLast? = some l) :
    extractJsonLine s = some (pyStrip l) := by
  rw [extract_eq_getLast_qualifying, h]
  rfl

/-- C5 witness: on a stdout with a noise line and one brace line, the
last qualifying line is selected and returned stripped. -/
theorem extraction_selects_last_brace_line_witness :
    (qualifyingLines "noise\n \x7b\"a\": 1\x7d").getLast? = some " \x7b\"a\": 1\x7d" ∧
    extractJsonLine "noise\n \x7b\"a\": 1\x7d" = some (pyStrip " \x7b\"a\": 1\x7d") :=
  ⟨rfl, extraction_selects_last_brace_line "noise\n \x7b\"a\": 1\x7d" " \x7b\"a\": 1\x7d" rfl⟩

/-- C6 (counterexample): with stdout `"hello\n"` (no brace line) the
pipeline fails with the extraction error, but the failure message embeds
the *stripped* stdout `"hello"`: the full raw stdout `"hello\n"` is not a
substring of the message. -/
theorem extraction_failure_raw_stdout_cex :
    runTest (fun _ _ => "") none (.completed ⟨0, "hello\n", "spam"⟩) =
      .failure .extractionError (extractionErrMsg "hello" "spam") ∧
    strContainsB (extractionErrMsg "hello" "spam") "hello\n" = false :=
  ⟨rfl, by decide⟩

/-- C6 (amended): whenever stdout has no qualifying brace line, the
pipeline fails deterministically with the extraction error, whose message
carries the whitespace-stripped stdout and stderr as substrings. -/
theorem extraction_failure_response (so se : String)
    (g : NormalizedMetrics → String → String) (c : Option String)
    (h : qualifyingLines so = []) :
    runTest g c (.completed ⟨0, so, se⟩) =
      .failure .extractionError (extractionErrMsg (pyStrip so) (pyStrip se)) ∧
    strContainsB (extractionErrMsg (pyStrip so) (pyStrip se)) (pyStrip so) = true ∧
    strContainsB (extractionErrMsg (pyStrip so) (pyStrip se)) (pyStrip se) = true := by
  have hx : extractJsonLine so = none := by
    rw [extract_eq_getLast_qualifying, h]
    rfl
  refine ⟨?_, ?_, ?_⟩
  · unfold runTest
    simp [hx]
  · exact strContainsB_infix _ _ extractionErrHead (stderrSep ++ pyStrip se)
      (by unfold extractionErrMsg; exact String.append_assoc _ _ _)
  · exact strContainsB_suffix _ _ (extractionErrHead ++ pyStrip so ++ stderrSep)
      (by unfold extractionErrMsg; rfl)

/-- C6 witness: stdout `"hello\n"` has no qualifying line, and the
resulting extraction failure carries the stripped stdout and stderr. -/
theorem extraction_failure_response_witness :
    qualifyingLines "hello\n" = [] ∧
    (runTest (fun _ _ => "") none (.completed ⟨0, "hello\n", "spam"⟩) =
      .failure .extractionError (extractionErrMsg (pyStrip "hello\n") (pyStrip "spam")) ∧
     strContainsB (extractionErrMsg (pyStrip "hello\n") (pyStrip "spam")) (pyStrip "hello\n") = true ∧
     strContainsB (extractionErrMsg (pyStrip "hello\n") (pyStrip "spam")) (pyStrip "spam") = true) :=
  ⟨rfl, extraction_failure_response "hello\n" "spam" (fun _ _ => "") none rfl⟩

/-- C7 (counterexample): with exit code 1 and stdout `"out\n"` the
pipeline fails with the process error, but the failure message embeds the
*stripped* stdout `"out"`: the original stdout `"out\n"` is not contained
verbatim. -/
theorem process_failure_verbatim_cex :
    runTest (fun _ _ => "") none (.completed ⟨1, "out\n", "err"⟩) =
      .failure .processError (processErrMsg 1 "out" "err") ∧
    strContainsB (processErrMsg 1 "out" "err") "out\n" = false :=
  ⟨rfl, by decide⟩

/-- C7 (amended): whenever the process finishes with a non-zero exit
status, the pipeline fails with the process error, whose message carries
the whitespace-stripped captured stdout and stderr as substrings; the
captured output is embedded in the message, not discarded. -/
theorem process_failure_response (rc : ℤ) (so se : String)
    (g : NormalizedMetrics → String → String) (c : Option String)
    (h : rc ≠ 0) :
    runTest g c (.completed ⟨rc, so, se⟩) =
      .failure .processError (processErrMsg rc (pyStrip so) (pyStrip se)) ∧
    strContainsB (processErrMsg rc (pyStrip so) (pyStrip se)) (pyStrip so) = true ∧
    strContainsB (processErrMsg rc (pyStrip so) (pyStrip se)) (pyStrip se) = true := by
  refine ⟨?_, ?_, ?_⟩
  · simp [runTest, h]
  · exact strContainsB_infix _ _ (processErrHead ++ toString rc ++ stdoutSep)
      (stderrSep ++ pyStrip se)
      (by unfold processErrMsg; exact String.append_assoc _ _ _)
  · exact strContainsB_suffix _ _
      (processErrHead ++ toString rc ++ stdoutSep ++ pyStrip so ++ stderrSep)
      (by unfold processErrMsg; rfl)

/-- C7 witness: exit code 1 produces the process failure carrying the
stripped stdout and stderr. -/
theorem process_failure_response_witness :
    (1 : ℤ) ≠ 0 ∧
    (runTest (fun _ _ => "") none (.completed ⟨1, "out\n", "err"⟩) =
      .failure .processError (processErrMsg 1 (pyStrip "out\n") (pyStrip "err")) ∧
     strContainsB (processErrMsg 1 (pyStrip "out\n") (pyStrip "err")) (pyStrip "out\n") = true ∧
     strContainsB (processErrMsg 1 (pyStrip "out\n") (pyStrip "err")) (pyStrip "err") = true) :=
  ⟨by decide, process_failure_response 1 "out\n" "err" (fun _ _ => "") none (by decide)⟩

/-- C8: when the subprocess call ends in the deadline (the invocation's
timeout is the single hard 30-second deadline), the pipeline produces the
timeout failure with its fixed message, and never a success — no partial
output is salvaged. -/
theorem timeout_failure_response (g : NormalizedMetrics → String → String)
    (c : Option String) :
    runTest g c .timedOut = .failure .timeoutError timeoutMsg ∧
    speedtestInvocation.timeoutSeconds = 30 ∧
    ∀ m ctx a, runTest g c .timedOut ≠ .success m ctx a :=
  ⟨rfl, rfl, fun _ _ _ h => TestResult.noConfusion h⟩

/-- C9 (counterexample): a *present but empty* context string is used
unchanged — the pipeline's success result carries context `""`, not the
fixed fallback string. -/
theorem context_empty_not_defaulted_cex :
    userContext (some "") = "" ∧
    ("" : String) ≠ defaultContext ∧
    (runTest (fun _ _ => "") (some "") (.completed ⟨0, "\x7b\x7d", ""⟩)).contextOf =
      some "" :=
  ⟨rfl, by decide, rfl⟩

/-- C9 (amended): the fixed fallback context is used exactly when the
caller supplied no context key at all; any present value — the empty
string included — is used unchanged, and the success result carries that
context. -/
theorem context_default_rule :
    userContext none = defaultContext ∧
    (∀ s, userContext (some s) = s) ∧
    (∀ g, (runTest g none (.completed ⟨0, "\x7b\x7d", ""⟩)).contextOf =
      some defaultContext) ∧
    (∀ g s, (runTest g (some s) (.completed ⟨0, "\x7b\x7d", ""⟩)).contextOf = some s) :=
  ⟨rfl, fun _ => rfl, fun _ => rfl, fun _ _ => rfl⟩

/-- C10: when the extracted line decodes to an object with a present but
non-numeric `download`/`upload`/`ping` value, the pipeline does not fail
with the parse error: normalization's arithmetic raises, and the result
is classified as the catch-all unknown-error failure. -/
theorem non_numeric_field_unknown_error
    (g : NormalizedMetrics → String → String) (c : Option String)
    (p : ProcessResult) (line : String) (obj : JObj)
    (h0 : p.returncode = 0)
    (h1 : extractJsonLine p.stdout = some line)
    (h2 : jsonDecode line = some obj)
    (h3 : hasBadMetricField obj) :
    (runTest g c (.completed p)).kindOf = some .unknownError ∧
    (runTest g c (.completed p)).msgOf = some (unknownErrMsg pyTypeErrorMsg) ∧
    (runTest g c (.completed p)).kindOf ≠ some .parseError := by
  have hr : runTest g c (.completed p) =
      .failure .unknownError (unknownErrMsg pyTypeErrorMsg) := by
    unfold runTest
    simp [h0, h1, h2, normalizeJ_error_of_bad obj h3]
  rw [hr]
  exact ⟨rfl, rfl, by decide⟩

/-- C10 witness: the line `{"ping": null}` decodes, `ping` is present and
non-numeric, and the pipeline classifies the failure as the unknown
error. -/
theorem non_numeric_field_unknown_error_witness :
    ((⟨0, "\x7b\"ping\": null\x7d", ""⟩ : ProcessResult).returncode = 0) ∧
    extractJsonLine "\x7b\"ping\": null\x7d" = some "\x7b\"ping\": null\x7d" ∧
    jsonDecode "\x7b\"ping\": null\x7d" = some [("ping", JValue.null)] ∧
    hasBadMetricField [("ping", JValue.null)] ∧
    (runTest (fun _ _ => "") none
      (.completed ⟨0, "\x7b\"ping\": null\x7d", ""⟩)).kindOf = some .unknownError := by
  refine ⟨rfl, rfl, rfl, ⟨"ping", by simp, JValue.null, rfl, rfl⟩, ?_⟩
  exact (non_numeric_field_unknown_error (fun _ _ => "") none
    ⟨0, "\x7b\"ping\": null\x7d", ""⟩ "\x7b\"ping\": null\x7d" [("ping", JValue.null)]
    rfl rfl rfl ⟨"ping", by simp, JValue.null, rfl, rfl⟩).1

theorem rne_def (x : ℚ) :
    rne x = if x - ⌊x⌋ < 1 / 2 then ⌊x⌋
      else if 1 / 2 < x - ⌊x⌋ then ⌊x⌋ + 1
      else if ⌊x⌋ % 2 = 0 then ⌊x⌋ else ⌊x⌋ + 1 := rfl

theorem hed_def (m d : ℤ) :
    hed m d = if 2 * (m - Int.fdiv m d * d) < d then Int.fdiv m d
      else if d < 2 * (m - Int.fdiv m d * d) then Int.fdiv m d + 1
      else if Int.fdiv m d % 2 = 0 then Int.fdiv m d else Int.fdiv m d + 1 := rfl

theorem rne_intCast (k : ℤ) : rne (k : ℚ) = k := by
  rw [rne_def, Int.floor_intCast, sub_self]
  norm_num

theorem hed_eq_rne (m d : ℤ) (hd : 0 < d) : hed m d = rne ((m : ℚ) / (d : ℚ)) := by
  have hd0 : d ≠ 0 := ne_of_gt hd
  have hd' : (0 : ℚ) < (d : ℚ) := by exact_mod_cast hd
  set q : ℤ := Int.fdiv m d with hq
  set r : ℤ := m - q * d with hr
  have hqe : q = m / d := Int.fdiv_eq_ediv m hd.le
  have hre : r = m % d := by
    have := Int.ediv_add_emod m d
    rw [hr, hqe]
    linarith [this, mul_comm d (m / d)]
  have hr0 : 0 ≤ r := hre ▸ Int.emod_nonneg m hd0
  have hrd : r < d := hre ▸ Int.emod_lt_of_pos m hd
  have hm : m = q * d + r := by rw [hr]; ring
  have hfloor : ⌊(m : ℚ) / (d : ℚ)⌋ = q := by
    rw [Int.floor_eq_iff]
    constructor
    · rw [le_div_iff₀ hd']
      have : (q * d : ℤ) ≤ m := by nlinarith
      exact_mod_cast this
    · rw [div_lt_iff₀ hd']
      have : (m : ℤ) < (q + 1) * d := by nlinarith
      exact_mod_cast this
  have hfract : (m : ℚ) / (d : ℚ) - (q : ℚ) = (r : ℚ) / (d : ℚ) := by
    field_simp
    have : (m : ℚ) = (q : ℚ) * (d : ℚ) + (r : ℚ) := by exact_mod_cast hm
    linarith
  have hlt : ((r : ℚ) / (d : ℚ) < 1 / 2) ↔ (2 * r < d) := by
    rw [div_lt_div_iff₀ hd' (by norm_num : (0 : ℚ) < 2), one_mul]
    constructor
    · intro hx
      have : ((2 * r : ℤ) : ℚ) < (d : ℚ) := by push_cast; linarith
      exact_mod_cast this
    · intro hx
      have : ((2 * r : ℤ) : ℚ) < (d : ℚ) := by exact_mod_cast hx
      push_cast at this
      linarith
  have hgt : (1 / 2 < (r : ℚ) / (d : ℚ)) ↔ (d < 2 * r) := by
    rw [div_lt_div_iff₀ (by norm_num : (0 : ℚ) < 2) hd', one_mul]
    constructor
    · intro hx
      have : ((d : ℤ) : ℚ) < ((2 * r : ℤ) : ℚ) := by push_cast; linarith
      exact_mod_cast this
    · intro hx
      have : ((d : ℤ) : ℚ) < ((2 * r : ℤ) : ℚ) := by exact_mod_cast hx
      push_cast at this
      linarith
  rw [hed_def, rne_def, hfloor, hfract, ← hq, ← hr]
  simp only [hlt, hgt]

theorem rneScaled_eq_rne (m e : ℤ) : rneScaled m e = rne ((m : ℚ) * 10 ^ e) := by
  by_cases he : 0 ≤ e
  · have hv : (m : ℚ) * 10 ^ e = ((m * 10 ^ e.toNat : ℤ) : ℚ) := by
      push_cast
      rw [← zpow_natCast (10 : ℚ) e.toNat, Int.toNat_of_nonneg he]
    rw [rneScaled, if_pos he, hv, rne_intCast]
  · push_neg at he
    have hk : ((-e).toNat : ℤ) = -e := Int.toNat_of_nonneg (by linarith)
    have hv : (m : ℚ) * 10 ^ e = (m : ℚ) / ((10 ^ (-e).toNat : ℤ) : ℚ) := by
      have h1 : (10 : ℚ) ^ e = ((10 : ℚ) ^ (-e).toNat)⁻¹ := by
        rw [← zpow_natCast (10 : ℚ) (-e).toNat, hk, zpow_neg, inv_inv]
      rw [h1]
      push_cast
      ring
    rw [rneScaled, if_neg (not_le.mpr he), hv,
      hed_eq_rne m (10 ^ (-e).toNat) (pow_pos (by norm_num) _)]

theorem dec_val_cast_nonneg (m e : ℤ) (he : 0 ≤ e) :
    (m : ℚ) * 10 ^ e = ((m * 10 ^ e.toNat : ℤ) : ℚ) := by
  push_cast
  rw [← zpow_natCast (10 : ℚ) e.toNat, Int.toNat_of_nonneg he]

theorem dec_val_cast_neg (m e : ℤ) (he : e < 0) :
    (m : ℚ) * 10 ^ e = (m : ℚ) / ((10 ^ (-e).toNat : ℤ) : ℚ) := by
  have hk : ((-e).toNat : ℤ) = -e := Int.toNat_of_nonneg (by linarith)
  have h1 : (10 : ℚ) ^ e = ((10 : ℚ) ^ (-e).toNat)⁻¹ := by
    rw [← zpow_natCast (10 : ℚ) (-e).toNat, hk, zpow_neg, inv_inv]
  rw [h1]
  push_cast
  ring

theorem dec_nonpos_iff (m e : ℤ) :
    (PyNum.dec m e).nonpos = true ↔ (m : ℚ) * 10 ^ e ≤ 0 := by
  have hp : (0 : ℚ) < (10 : ℚ) ^ e := zpow_pos (by norm_num) e
  simp only [PyNum.nonpos, PyNum.mantExp, decide_eq_true_eq]
  constructor
  · intro h
    have hm : (m : ℚ) ≤ 0 := by exact_mod_cast h
    nlinarith
  · intro h
    by_contra hc
    push_neg at hc
    have hm : (0 : ℚ) < (m : ℚ) := by exact_mod_cast hc
    nlinarith

theorem dec_tooHigh_iff (m e : ℤ) :
    (PyNum.dec m e).tooHigh = true ↔ 10000 < (m : ℚ) * 10 ^ e := by
  by_cases he : 0 ≤ e
  · simp only [PyNum.tooHigh, PyNum.mantExp, he, if_true, decide_eq_true_eq]
    rw [dec_val_cast_nonneg m e he]
    constructor <;> intro h <;> exact_mod_cast h
  · push_neg at he
    have hp : (0 : ℚ) < ((10 ^ (-e).toNat : ℤ) : ℚ) := by
      exact_mod_cast pow_pos (by norm_num : (0 : ℤ) < 10) (-e).toNat
    simp only [PyNum.tooHigh, PyNum.mantExp, not_le.mpr he, if_false, decide_eq_true_eq]
    rw [dec_val_cast_neg m e he, lt_div_iff₀ hp]
    constructor <;> intro h <;> exact_mod_cast h

theorem mbitStrJ_dec (m e : ℤ) :
    mbitStrJ (.dec m e) = mbitStr ((m : ℚ) * 10 ^ e) := by
  have h4 : (10 : ℚ) ^ (4 : ℤ) = 10000 := by norm_num
  have harg : (m : ℚ) * 10 ^ (e - 4) = (m : ℚ) * 10 ^ e / 10000 := by
    rw [zpow_sub₀ (by norm_num : (10 : ℚ) ≠ 0), h4]
    ring
  simp only [mbitStrJ, mbitStr, PyNum.mantExp]
  rw [rneScaled_eq_rne, harg]

theorem pingStrJ_dec (m e : ℤ) :
    pingStrJ (.dec m e) = floatRepr0 (rne ((m : ℚ) * 10 ^ e)) ++ " ms" := by
  simp only [pingStrJ]
  rw [rneScaled_eq_rne]

/-- The pipeline's exact integer normalization agrees with the
spec-level rational normalization on float-valued fields: decoding a
JSON object whose three metric fields are the decimals
`md * 10 ^ ed`, `mu * 10 ^ eu`, `mp * 10 ^ ep` and normalizing it gives
exactly `normalizeMetrics` of those exact values. -/
theorem normalizeJ_float_fields (md ed mu eu mp ep : ℤ) :
    normalizeJ [("download", .num (.dec md ed)), ("upload", .num (.dec mu eu)),
        ("ping", .num (.dec mp ep))] =
      .ok (normalizeMetrics
        ⟨(md : ℚ) * 10 ^ ed, (mu : ℚ) * 10 ^ eu, (mp : ℚ) * 10 ^ ep⟩) := by
  have hstep : normalizeJ [("download", .num (.dec md ed)), ("upload", .num (.dec mu eu)),
      ("ping", .num (.dec mp ep))] =
    .ok { download := if (PyNum.dec md ed).nonpos then downloadSentinel
            else mbitStrJ (.dec md ed)
          upload := mbitStrJ (.dec mu eu)
          ping := if ((PyNum.dec mp ep).tooHigh || (PyNum.dec mp ep).nonpos) then pingSentinel
            else pingStrJ (.dec mp ep) } := rfl
  rw [hstep]
  congr 1
  simp only [normalizeMetrics]
  congr 1
  · exact if_congr (dec_nonpos_iff md ed) rfl (mbitStrJ_dec md ed)
  · exact mbitStrJ_dec mu eu
  · refine if_congr ?_ rfl (pingStrJ_dec mp ep)
    rw [Bool.or_eq_true]
    exact or_congr (dec_tooHigh_iff mp ep) (dec_nonpos_iff mp ep)
